import Mathlib

/-!
# Verification of the dynamic-risk-assessment-system pipeline

Shallow embedding of the repository's pipeline stages:

* `DataIngestion.merge_multiple_dataframe` (ingestion.py): reads every file
  of the input folder, keeps those whose name ends in `.csv`, writes their
  names to `ingestedfiles.txt`, concatenates their rows, drops duplicate
  rows keeping the first occurrence (pandas `drop_duplicates`), and writes
  the merged table to `finaldata.csv` only when at least one CSV was found.
* `ModelDeployment.deploy_model` (deployment.py): checks that the three
  staging files exist, raising `FileNotFoundError` before any write if one
  is missing, then copies all three to the production path.
* `ModelScorer.score_model` (scoring.py): computes the weighted F1 score of
  the predictions on the test set and persists its string representation.
* The automation driver (fullprocess.py): detects new source files by
  list-membership difference against the production manifest, exits if
  there are none, otherwise copies previously ingested files forward,
  re-ingests, re-trains, re-scores, and redeploys exactly when the new
  score differs from the persisted production score (0.0 when absent).
* The Flask endpoints (app.py): `first_run` and `predict` wrap their
  pipeline stage in try/except and answer HTTP 500 with the exception
  message; `scoring_stats`, `summary_stats` and `diagnostics_stats` have
  no handler, so exceptions propagate out of the endpoint.

Files are modelled as `Option` contents (`none` = absent); every stage is
a pure function on an explicit state record.
-/

namespace DRAS

/-! ## Ingestion (ingestion.py, `DataIngestion.merge_multiple_dataframe`) -/

/-- A directory listing: each file is a name together with its parsed rows.
Rows are abstract (`α`); only equality of rows matters for deduplication. -/
abbrev Dir (α : Type) := List (String × List α)

/-- `file.endswith('.csv')` from ingestion.py: the name's character
sequence ends with the four characters `.csv`. -/
def isCsv (name : String) : Bool := List.isSuffixOf ".csv".data name.data

/-- The CSV files of a directory listing, in listing order. -/
def csvFiles {α : Type} (dir : Dir α) : Dir α :=
  dir.filter (fun f => isCsv f.1)

/-- The manifest written to `ingestedfiles.txt`: the names of the CSV
files, one per line, in listing order. -/
def manifestNames {α : Type} (dir : Dir α) : List String :=
  (csvFiles dir).map Prod.fst

/-- Concatenation of the rows of all CSV files (pandas `concat` with
`ignore_index=True`). -/
def concatRows {α : Type} (dir : Dir α) : List α :=
  ((csvFiles dir).map Prod.snd).flatten

/-- pandas `drop_duplicates(ignore_index=True)`: keep the first occurrence
of each row, in order.  `seen` accumulates the rows already kept. -/
def dropDuplicatesFrom {α : Type} [DecidableEq α] (seen : List α) : List α → List α
  | [] => []
  | x :: xs =>
      if x ∈ seen then dropDuplicatesFrom seen xs
      else x :: dropDuplicatesFrom (x :: seen) xs

/-- `merged_df.drop_duplicates(ignore_index=True)` on the concatenated rows. -/
def drop_duplicates {α : Type} [DecidableEq α] (l : List α) : List α :=
  dropDuplicatesFrom [] l

/-- The rows of the merged table `finaldata.csv` produced by
`merge_multiple_dataframe`. -/
def mergedRows {α : Type} [DecidableEq α] (dir : Dir α) : List α :=
  drop_duplicates (concatRows dir)

/-- Number of concatenated rows that `drop_duplicates` removes: rows equal
to some row already seen earlier in the concatenation. -/
def dupCountFrom {α : Type} [DecidableEq α] (seen : List α) : List α → Nat
  | [] => 0
  | x :: xs =>
      if x ∈ seen then 1 + dupCountFrom seen xs
      else dupCountFrom (x :: seen) xs

/-- Number of duplicate rows removed from a concatenated list. -/
def dupCount {α : Type} [DecidableEq α] (l : List α) : Nat :=
  dupCountFrom [] l

/-- State of the folders `merge_multiple_dataframe` touches: the input
folder listing, and the two output files it may write.  `finalData = none`
means `finaldata.csv` does not exist. -/
structure IngestState (α : Type) where
  inputDir : Dir α
  manifestFile : Option (List String)
  finalData : Option (List α)
  deriving DecidableEq

/-- `DataIngestion.merge_multiple_dataframe` (ingestion.py lines 25-54):
always (over)writes `ingestedfiles.txt` with the CSV names; writes
`finaldata.csv` with the deduplicated concatenation only when at least one
CSV file is present, otherwise leaves `finaldata.csv` as it was. -/
def merge_multiple_dataframe {α : Type} [DecidableEq α] (s : IngestState α) :
    IngestState α :=
  { s with
    manifestFile := some (manifestNames s.inputDir)
    finalData :=
      if (csvFiles s.inputDir).isEmpty then s.finalData
      else some (mergedRows s.inputDir) }

/-! ### Lemmas about deduplication -/

theorem dropDuplicatesFrom_length_le {α : Type} [DecidableEq α]
    (seen : List α) (l : List α) :
    (dropDuplicatesFrom seen l).length ≤ l.length := by
  induction l generalizing seen with
  | nil => simp [dropDuplicatesFrom]
  | cons x xs ih =>
      simp only [dropDuplicatesFrom]
      split
      · exact Nat.le_succ_of_le (ih seen)
      · simpa using Nat.succ_le_succ (ih (x :: seen))

theorem dropDuplicatesFrom_length_add_dupCountFrom {α : Type} [DecidableEq α]
    (seen : List α) (l : List α) :
    (dropDuplicatesFrom seen l).length + dupCountFrom seen l = l.length := by
  induction l generalizing seen with
  | nil => simp [dropDuplicatesFrom, dupCountFrom]
  | cons x xs ih =>
      simp only [dropDuplicatesFrom, dupCountFrom]
      split
      · rw [Nat.add_comm 1 (dupCountFrom seen xs), ← Nat.add_assoc]
        simp [ih seen]
      · have := ih (x :: seen)
        simp only [List.length_cons]
        omega

theorem mem_dropDuplicatesFrom {α : Type} [DecidableEq α]
    {seen : List α} {l : List α} {x : α}
    (h : x ∈ dropDuplicatesFrom seen l) : x ∉ seen := by
  induction l generalizing seen with
  | nil => simp [dropDuplicatesFrom] at h
  | cons y ys ih =>
      simp only [dropDuplicatesFrom] at h
      split at h
      · exact ih h
      · rcases List.mem_cons.mp h with rfl | h
        · assumption
        · intro hx
          exact ih h (List.mem_cons_of_mem _ hx)

theorem dropDuplicatesFrom_nodup {α : Type} [DecidableEq α]
    (seen : List α) (l : List α) : (dropDuplicatesFrom seen l).Nodup := by
  induction l generalizing seen with
  | nil => simp [dropDuplicatesFrom]
  | cons x xs ih =>
      simp only [dropDuplicatesFrom]
      split
      · exact ih seen
      · refine List.nodup_cons.mpr ⟨fun hx => ?_, ih (x :: seen)⟩
        exact mem_dropDuplicatesFrom hx (List.mem_cons_self x seen)

/-- C3 (helper): total input row count over the CSV files. -/
def inputRowCount {α : Type} (dir : Dir α) : Nat :=
  ((csvFiles dir).map (fun f => f.2.length)).sum

theorem concatRows_length {α : Type} (dir : Dir α) :
    (concatRows dir).length = inputRowCount dir := by
  simp only [concatRows, inputRowCount, List.length_flatten, List.map_map]
  rfl

/-- C3: the merged dataset's row count is at most the sum of the input
files' row counts; it equals that sum minus the number of duplicate rows
removed; and the merged dataset has no duplicate rows. -/
theorem merged_row_count {α : Type} [DecidableEq α] (dir : Dir α) :
    (mergedRows dir).length ≤ inputRowCount dir ∧
    (mergedRows dir).length = inputRowCount dir - dupCount (concatRows dir) ∧
    (mergedRows dir).Nodup := by
  have hle : (mergedRows dir).length ≤ (concatRows dir).length :=
    dropDuplicatesFrom_length_le [] (concatRows dir)
  have hsum := dropDuplicatesFrom_length_add_dupCountFrom [] (concatRows dir)
  refine ⟨?_, ?_, dropDuplicatesFrom_nodup [] (concatRows dir)⟩
  · rw [← concatRows_length]; exact hle
  · rw [← concatRows_length]
    unfold mergedRows drop_duplicates dupCount at *
    omega

/-- C4: running `merge_multiple_dataframe` a second time on the unchanged
input directory reproduces the same manifest and the same merged table. -/
theorem merge_idempotent {α : Type} [DecidableEq α] (s : IngestState α) :
    (merge_multiple_dataframe (merge_multiple_dataframe s)).manifestFile =
      (merge_multiple_dataframe s).manifestFile ∧
    (merge_multiple_dataframe (merge_multiple_dataframe s)).finalData =
      (merge_multiple_dataframe s).finalData := by
  constructor
  · rfl
  · simp only [merge_multiple_dataframe]
    split <;> rfl

/-- C8: a file whose name does not end in `.csv` contributes no rows to
the merged dataset and no entry to the manifest: inserting it anywhere in
the directory listing changes neither output. -/
theorem merge_ignores_non_csv {α : Type} [DecidableEq α]
    (pre post : Dir α) (name : String) (rows : List α)
    (h : ¬ isCsv name) :
    mergedRows (pre ++ (name, rows) :: post) = mergedRows (pre ++ post) ∧
    manifestNames (pre ++ (name, rows) :: post) = manifestNames (pre ++ post) ∧
    name ∉ manifestNames (pre ++ (name, rows) :: post) := by
  have hfilter : csvFiles (pre ++ (name, rows) :: post) = csvFiles (pre ++ post) := by
    simp [csvFiles, List.filter_append, h]
  refine ⟨?_, ?_, ?_⟩
  · simp [mergedRows, concatRows, hfilter]
  · simp [manifestNames, hfilter]
  · intro hmem
    simp only [manifestNames, List.mem_map] at hmem
    obtain ⟨f, hf, hname⟩ := hmem
    have := List.of_mem_filter hf
    rw [hname] at this
    exact h (by simpa using this)

/-- C8 witness: a concrete non-CSV file is ignored by ingestion. -/
theorem merge_ignores_non_csv_witness :
    ¬ isCsv "notes.txt" ∧
    mergedRows ([("a.csv", [1, 2])] ++ ("notes.txt", [7]) :: [("b.csv", [2, 3])]) =
      mergedRows ([("a.csv", [1, 2])] ++ [("b.csv", [2, 3])]) ∧
    manifestNames ([("a.csv", [(1 : Nat), 2])] ++ ("notes.txt", [7]) :: [("b.csv", [2, 3])]) =
      manifestNames ([("a.csv", [1, 2])] ++ [("b.csv", [2, 3])]) ∧
    "notes.txt" ∉ manifestNames ([("a.csv", [(1 : Nat), 2])] ++ ("notes.txt", [7]) :: [("b.csv", [2, 3])]) := by
  refine ⟨by decide, ?_⟩
  exact merge_ignores_non_csv [("a.csv", [1, 2])] [("b.csv", [2, 3])] "notes.txt" [7] (by decide)

/-- C10: with no CSV files in the input folder, ingestion still overwrites
the manifest with an empty file, but leaves `finaldata.csv` untouched. -/
theorem merge_no_csv_empty_manifest {α : Type} [DecidableEq α]
    (s : IngestState α) (h : csvFiles s.inputDir = []) :
    (merge_multiple_dataframe s).manifestFile = some [] ∧
    (merge_multiple_dataframe s).finalData = s.finalData := by
  constructor
  · simp [merge_multiple_dataframe, manifestNames, h]
  · simp [merge_multiple_dataframe, h]

/-- C10 witness: concrete folder holding only a non-CSV file, with a stale
`finaldata.csv` on disk. -/
theorem merge_no_csv_empty_manifest_witness :
    csvFiles (IngestState.inputDir ⟨[("readme.md", [9])], some ["old.csv"], some [(5 : Nat)]⟩) = [] ∧
    (merge_multiple_dataframe ⟨[("readme.md", [9])], some ["old.csv"], some [(5 : Nat)]⟩).manifestFile = some [] ∧
    (merge_multiple_dataframe ⟨[("readme.md", [(9 : Nat)])], some ["old.csv"], some [5]⟩).finalData = some [5] := by
  refine ⟨by decide, ?_⟩
  exact merge_no_csv_empty_manifest ⟨[("readme.md", [9])], some ["old.csv"], some [5]⟩ (by decide)

/-! ## Deployment (deployment.py, `ModelDeployment.deploy_model`) -/

/-- `FileNotFoundError` raised by `deploy_model`, one constructor per
message of deployment.py lines 45-50. -/
inductive DeployError where
  | modelNotFound
  | scoreNotFound
  | ingestNotFound
  deriving DecidableEq

/-- The six files `deploy_model` touches: `trainedmodel.pkl`,
`latestscore.txt` and `ingestedfiles.txt` in the staging (output) folder
and in the production deployment folder.  Contents are abstract; `none`
means the file does not exist. -/
structure DeployFiles (M S I : Type) where
  outModel : Option M
  outScore : Option S
  outIngested : Option I
  prodModel : Option M
  prodScore : Option S
  prodIngested : Option I
  deriving DecidableEq

/-- `ModelDeployment.deploy_model` (deployment.py lines 35-72): the three
existence checks run first, in source order, and a missing file raises
before anything is written (the returned state is unchanged); when all
three exist, the model is loaded and re-dumped at the production path and
the two text files are read and rewritten there.  Returns the resulting
file state and the raised error, if any. -/
def deploy_model {M S I : Type} (s : DeployFiles M S I) :
    DeployFiles M S I × Option DeployError :=
  match s.outModel with
  | none => (s, some .modelNotFound)
  | some m =>
    match s.outScore with
    | none => (s, some .scoreNotFound)
    | some sc =>
      match s.outIngested with
      | none => (s, some .ingestNotFound)
      | some ing =>
        ({ s with prodModel := some m, prodScore := some sc,
                  prodIngested := some ing }, none)

/-- C2: deployment is all-or-nothing.  If any of the three staging files
is absent, `deploy_model` raises `FileNotFoundError` and no production
file changes; if all three are present, no error is raised and all three
are copied to the production path. -/
theorem deploy_model_all_or_nothing {M S I : Type} (s : DeployFiles M S I) :
    ((s.outModel = none ∨ s.outScore = none ∨ s.outIngested = none) →
      (deploy_model s).2.isSome ∧ (deploy_model s).1 = s) ∧
    (s.outModel ≠ none → s.outScore ≠ none → s.outIngested ≠ none →
      (deploy_model s).2 = none ∧
      (deploy_model s).1 =
        { s with prodModel := s.outModel, prodScore := s.outScore,
                 prodIngested := s.outIngested }) := by
  constructor
  · intro h
    rcases h with h | h | h <;>
      · unfold deploy_model
        rcases hm : s.outModel with _ | m <;>
          rcases hs : s.outScore with _ | sc <;>
            rcases hi : s.outIngested with _ | ing <;>
              simp_all
  · intro hm hs hi
    rcases hm' : s.outModel with _ | m
    · exact absurd hm' hm
    rcases hs' : s.outScore with _ | sc
    · exact absurd hs' hs
    rcases hi' : s.outIngested with _ | ing
    · exact absurd hi' hi
    unfold deploy_model
    rw [hm', hs', hi']
    exact ⟨rfl, rfl⟩

/-- C2 witness: a concrete deploy with `latestscore.txt` missing changes
nothing and errors; a concrete deploy with all three staging files present
copies all three. -/
theorem deploy_model_all_or_nothing_witness :
    ((deploy_model (⟨some 1, none, some 3, none, none, none⟩ : DeployFiles Nat Nat Nat)).2.isSome ∧
      (deploy_model (⟨some 1, none, some 3, none, none, none⟩ : DeployFiles Nat Nat Nat)).1 =
        ⟨some 1, none, some 3, none, none, none⟩) ∧
    ((deploy_model (⟨some 1, some 2, some 3, none, none, none⟩ : DeployFiles Nat Nat Nat)).2 = none ∧
      (deploy_model (⟨some 1, some 2, some 3, none, none, none⟩ : DeployFiles Nat Nat Nat)).1 =
        ⟨some 1, some 2, some 3, some 1, some 2, some 3⟩) := by
  constructor
  · exact (deploy_model_all_or_nothing ⟨some 1, none, some 3, none, none, none⟩).1
      (Or.inr (Or.inl rfl))
  · exact (deploy_model_all_or_nothing ⟨some 1, some 2, some 3, none, none, none⟩).2
      (by decide) (by decide) (by decide)

/-! ## Scoring (scoring.py, `ModelScorer.score_model`)

`score_model` drops the `corporation` and `exited` columns to get the
feature matrix, predicts with the loaded model, and computes
`sklearn.metrics.f1_score(y_test, y_pred, average='weighted')`: the
per-label F1 scores averaged with the label supports (counts in `y_test`)
as weights, over the labels occurring in `y_test` or `y_pred`, with the
0/0 convention `zero_division -> 0`.  Exact rational arithmetic stands in
for floating point. -/

section Scoring

variable {L : Type} [DecidableEq L]

/-- True positives of label `x`: positions where truth and prediction are
both `x`. -/
def truePos (yt yp : List L) (x : L) : Nat :=
  (yt.zip yp).countP (fun p => decide (p.1 = x ∧ p.2 = x))

/-- False positives of label `x`: predicted `x`, truth different. -/
def falsePos (yt yp : List L) (x : L) : Nat :=
  (yt.zip yp).countP (fun p => decide (p.1 ≠ x ∧ p.2 = x))

/-- False negatives of label `x`: truth `x`, predicted different. -/
def falseNeg (yt yp : List L) (x : L) : Nat :=
  (yt.zip yp).countP (fun p => decide (p.1 = x ∧ p.2 ≠ x))

/-- Per-label precision, 0 when no positive prediction exists. -/
def precision (yt yp : List L) (x : L) : ℚ :=
  if truePos yt yp x + falsePos yt yp x = 0 then 0
  else (truePos yt yp x : ℚ) / ((truePos yt yp x : ℚ) + (falsePos yt yp x : ℚ))

/-- Per-label recallOf, 0 when the label has no true occurrence. -/
def recallOf (yt yp : List L) (x : L) : ℚ :=
  if truePos yt yp x + falseNeg yt yp x = 0 then 0
  else (truePos yt yp x : ℚ) / ((truePos yt yp x : ℚ) + (falseNeg yt yp x : ℚ))

/-- Per-label F1: harmonic mean of precision and recallOf, 0 when both are 0. -/
def f1Class (yt yp : List L) (x : L) : ℚ :=
  if precision yt yp x + recallOf yt yp x = 0 then 0
  else 2 * precision yt yp x * recallOf yt yp x /
    (precision yt yp x + recallOf yt yp x)

/-- Support of label `x`: its number of occurrences in `y_test`. -/
def support (yt : List L) (x : L) : Nat := yt.count x

/-- The labels sklearn averages over: those occurring in truth or
prediction, each once. -/
def scoreLabels (yt yp : List L) : List L := (yt ++ yp).dedup

/-- `f1_score(..., average='weighted')`: support-weighted mean of the
per-label F1 scores. -/
def f1_score_weighted (yt yp : List L) : ℚ :=
  let w := (scoreLabels yt yp).map (fun x => (support yt x : ℚ))
  if w.sum = 0 then 0
  else ((scoreLabels yt yp).map
    (fun x => (support yt x : ℚ) * f1Class yt yp x)).sum / w.sum

/-- One row of `testdata.csv`: feature columns, the `corporation` column
and the `exited` outcome column. -/
structure TestRow (F L : Type) where
  features : F
  corporation : String
  exited : L
  deriving DecidableEq

/-- `ModelScorer.score_model` (scoring.py lines 27-40) on a loaded model
and loaded test data: `y_test` is the `exited` column, `y_pred` the
model's predictions on the feature columns; returns the weighted F1 score
together with the text written to `latestscore.txt` (`str(f1_score)`). -/
def score_model {F M : Type} (predict : M → F → L) (model : M)
    (test_data : List (TestRow F L)) : ℚ × String :=
  let y_test := test_data.map TestRow.exited
  let y_pred := test_data.map (fun r => predict model r.features)
  let f1 := f1_score_weighted y_test y_pred
  (f1, toString f1)

theorem precision_nonneg (yt yp : List L) (x : L) : 0 ≤ precision yt yp x := by
  unfold precision
  split
  · exact le_refl 0
  · positivity

theorem precision_le_one (yt yp : List L) (x : L) : precision yt yp x ≤ 1 := by
  unfold precision
  split
  · exact zero_le_one
  · rename_i h
    have hpos : (0 : ℚ) < (truePos yt yp x : ℚ) + (falsePos yt yp x : ℚ) := by
      have : 0 < truePos yt yp x + falsePos yt yp x := Nat.pos_of_ne_zero h
      exact_mod_cast this
    rw [div_le_one hpos]
    have : (0 : ℚ) ≤ (falsePos yt yp x : ℚ) := by positivity
    linarith

theorem recall_nonneg (yt yp : List L) (x : L) : 0 ≤ recallOf yt yp x := by
  unfold recallOf
  split
  · exact le_refl 0
  · positivity

theorem recall_le_one (yt yp : List L) (x : L) : recallOf yt yp x ≤ 1 := by
  unfold recallOf
  split
  · exact zero_le_one
  · rename_i h
    have hpos : (0 : ℚ) < (truePos yt yp x : ℚ) + (falseNeg yt yp x : ℚ) := by
      have : 0 < truePos yt yp x + falseNeg yt yp x := Nat.pos_of_ne_zero h
      exact_mod_cast this
    rw [div_le_one hpos]
    have : (0 : ℚ) ≤ (falseNeg yt yp x : ℚ) := by positivity
    linarith

theorem f1Class_nonneg (yt yp : List L) (x : L) : 0 ≤ f1Class yt yp x := by
  unfold f1Class
  split
  · exact le_refl 0
  · have hp := precision_nonneg yt yp x
    have hr := recall_nonneg yt yp x
    positivity

theorem f1Class_le_one (yt yp : List L) (x : L) : f1Class yt yp x ≤ 1 := by
  unfold f1Class
  split
  · exact zero_le_one
  · rename_i h
    have hp0 := precision_nonneg yt yp x
    have hp1 := precision_le_one yt yp x
    have hr0 := recall_nonneg yt yp x
    have hr1 := recall_le_one yt yp x
    have hpos : 0 < precision yt yp x + recallOf yt yp x :=
      lt_of_le_of_ne (by linarith) (Ne.symm h)
    rw [div_le_one hpos]
    nlinarith

theorem f1_score_weighted_mem_unit (yt yp : List L) :
    0 ≤ f1_score_weighted yt yp ∧ f1_score_weighted yt yp ≤ 1 := by
  unfold f1_score_weighted
  simp only
  split
  · exact ⟨le_refl 0, zero_le_one⟩
  · rename_i h
    set ls := scoreLabels yt yp with hls
    have hwnonneg : 0 ≤ (ls.map (fun x => (support yt x : ℚ))).sum := by
      apply List.sum_nonneg
      intro q hq
      simp only [List.mem_map] at hq
      obtain ⟨x, _, rfl⟩ := hq
      positivity
    have hwpos : 0 < (ls.map (fun x => (support yt x : ℚ))).sum :=
      lt_of_le_of_ne hwnonneg (Ne.symm h)
    constructor
    · apply div_nonneg _ hwnonneg
      apply List.sum_nonneg
      intro q hq
      simp only [List.mem_map] at hq
      obtain ⟨x, _, rfl⟩ := hq
      have := f1Class_nonneg yt yp x
      positivity
    · rw [div_le_one hwpos]
      apply List.sum_le_sum
      intro x _
      have h0 := f1Class_nonneg yt yp x
      have h1 := f1Class_le_one yt yp x
      have hs : (0 : ℚ) ≤ (support yt x : ℚ) := by positivity
      nlinarith

/-- C7: on a loaded model and non-empty test data, `score_model` returns
a weighted F1 score in `[0, 1]`, and the text persisted to
`latestscore.txt` is exactly the string representation of the returned
score. -/
theorem score_model_bounds {F M : Type} (predict : M → F → L) (model : M)
    (test_data : List (TestRow F L)) (_h : test_data ≠ []) :
    0 ≤ (score_model predict model test_data).1 ∧
    (score_model predict model test_data).1 ≤ 1 ∧
    (score_model predict model test_data).2 =
      toString (score_model predict model test_data).1 := by
  have hb := f1_score_weighted_mem_unit (test_data.map TestRow.exited)
    (test_data.map (fun r => predict model r.features))
  exact ⟨hb.1, hb.2, rfl⟩

end Scoring

/-- C7 witness: a concrete scorer run on two test rows, one predicted
correctly. -/
theorem score_model_bounds_witness :
    ([(⟨10, "corpA", 0⟩ : TestRow Nat Nat), ⟨11, "corpB", 1⟩] ≠ []) ∧
    (0 ≤ (score_model (fun _ f => f % 2) 0
      [(⟨10, "corpA", 0⟩ : TestRow Nat Nat), ⟨11, "corpB", 1⟩]).1 ∧
    (score_model (fun _ f => f % 2) 0
      [(⟨10, "corpA", 0⟩ : TestRow Nat Nat), ⟨11, "corpB", 1⟩]).1 ≤ 1 ∧
    (score_model (fun _ f => f % 2) 0
      [(⟨10, "corpA", 0⟩ : TestRow Nat Nat), ⟨11, "corpB", 1⟩]).2 =
      toString (score_model (fun _ f => f % 2) 0
        [(⟨10, "corpA", 0⟩ : TestRow Nat Nat), ⟨11, "corpB", 1⟩]).1) := by
  constructor
  · decide
  · exact score_model_bounds (fun _ f => f % 2) 0
      [⟨10, "corpA", 0⟩, ⟨11, "corpB", 1⟩] (by decide)

/-! ## Automation driver (fullprocess.py)

The driver is a linear script over the configured folders.  Training and
scoring are abstracted by functions `train : List Row → Model` and
`score : Model → TD → ℚ` (the claims about the driver concern its control
flow, not the fitted coefficients); everything else follows the script
line by line. -/

/-- The files the driver reads and writes: the source data folder
(`input_folder_path`), the base data folder (`base_data_path`), the test
set, the staging (output) folder files and the production deployment
files.  `none` means the file does not exist; scores are stored parsed. -/
structure DriverState (Row Model TD : Type) where
  inputDir : Dir Row
  baseDataDir : Dir Row
  testData : TD
  outManifest : Option (List String)
  outFinalData : Option (List Row)
  outModel : Option Model
  outScore : Option ℚ
  prodModel : Option Model
  prodScore : Option ℚ
  prodManifest : Option (List String)
  deriving DecidableEq

/-- Unhandled exceptions the driver can crash with. -/
inductive DriverError where
  | finalDataMissing
  | deployFailed (e : DeployError)
  deriving DecidableEq

/-- fullprocess.py lines 20-25: the manifest read from the production
deployment path, `[]` when `ingestedfiles.txt` is absent. -/
def ingestedList {Row Model TD : Type} (s : DriverState Row Model TD) :
    List String :=
  s.prodManifest.getD []

/-- fullprocess.py line 30: source files not listed in the manifest. -/
def newDataFiles {Row Model TD : Type} (s : DriverState Row Model TD) :
    List String :=
  (s.inputDir.map Prod.fst).filter (fun n => decide (n ∉ ingestedList s))

/-- One file lookup in a directory listing. -/
def lookupFile {Row : Type} (dir : Dir Row) (name : String) :
    Option (List Row) :=
  (dir.find? (fun f => decide (f.1 = name))).map Prod.snd

/-- `cp base/file dir/`: overwrite the entry of that name, or append it. -/
def setFile {Row : Type} (dir : Dir Row) (name : String) (rows : List Row) :
    Dir Row :=
  if dir.any (fun f => decide (f.1 = name)) then
    dir.map (fun f => if f.1 = name then (name, rows) else f)
  else dir ++ [(name, rows)]

/-- fullprocess.py lines 44-52: copy every manifest file that exists in
the base data folder into the source data folder. -/
def copyForward {Row : Type} (base : Dir Row) (names : List String)
    (dir : Dir Row) : Dir Row :=
  names.foldl
    (fun d n =>
      match lookupFile base n with
      | some rows => setFile d n rows
      | none => d)
    dir

/-- The source data folder after the copy-forward step. -/
def driverInputDir {Row Model TD : Type} (s : DriverState Row Model TD) :
    Dir Row :=
  copyForward s.baseDataDir (ingestedList s) s.inputDir

/-- fullprocess.py lines 55-59: the ingestion call on the source folder
after copy-forward, writing into the output folder. -/
def driverIngest {Row Model TD : Type} [DecidableEq Row]
    (s : DriverState Row Model TD) : IngestState Row :=
  merge_multiple_dataframe ⟨driverInputDir s, s.outManifest, s.outFinalData⟩

/-- The driver state after copy-forward and ingestion. -/
def driverAfterIngest {Row Model TD : Type} [DecidableEq Row]
    (s : DriverState Row Model TD) : DriverState Row Model TD :=
  { s with
    inputDir := driverInputDir s
    outManifest := (driverIngest s).manifestFile
    outFinalData := (driverIngest s).finalData }

/-- fullprocess.py, the whole script: (a) read the production manifest,
(b) exit if every source file is listed there, (c) otherwise copy
previously ingested files forward, re-ingest and re-train (crashing if
`finaldata.csv` is still absent), (d) score the new model — which also
writes the staging `latestscore.txt` — and read the production score
(0.0 when absent), (e) deploy exactly when the two scores are unequal,
else exit.  Returns the resulting file state and the unhandled exception,
if any. -/
def fullprocess {Row Model TD : Type} [DecidableEq Row]
    (train : List Row → Model) (score : Model → TD → ℚ)
    (s : DriverState Row Model TD) :
    DriverState Row Model TD × Option DriverError :=
  if newDataFiles s = [] then (s, none)
  else
    let s1 := driverAfterIngest s
    match s1.outFinalData with
    | none => (s1, some .finalDataMissing)
    | some rows =>
        let m := train rows
        let ns := score m s.testData
        let s3 := { s1 with outModel := some m, outScore := some ns }
        if ns ≠ s.prodScore.getD 0 then
          let d := deploy_model ⟨s3.outModel, s3.outScore, s3.outManifest,
            s3.prodModel, s3.prodScore, s3.prodManifest⟩
          ({ s3 with prodModel := d.1.prodModel, prodScore := d.1.prodScore,
                     prodManifest := d.1.prodIngested },
           d.2.map DriverError.deployFailed)
        else (s3, none)

/-- Shared driver lemma: when new files exist and ingestion leaves
`finaldata.csv` present with rows `rows`, the driver completes without
exception; it deploys the new model, score and manifest to production
exactly when the new score differs from the production score (read as 0
when absent), and leaves all three production files unchanged when the
scores are equal. -/
theorem fullprocess_run_spec {Row Model TD : Type} [DecidableEq Row]
    (train : List Row → Model) (score : Model → TD → ℚ)
    (s : DriverState Row Model TD) (rows : List Row)
    (hnew : newDataFiles s ≠ [])
    (hdata : (driverIngest s).finalData = some rows) :
    (score (train rows) s.testData ≠ s.prodScore.getD 0 →
      (fullprocess train score s).2 = none ∧
      (fullprocess train score s).1.prodModel = some (train rows) ∧
      (fullprocess train score s).1.prodScore =
        some (score (train rows) s.testData) ∧
      (fullprocess train score s).1.prodManifest =
        some (manifestNames (driverInputDir s))) ∧
    (score (train rows) s.testData = s.prodScore.getD 0 →
      (fullprocess train score s).2 = none ∧
      (fullprocess train score s).1.prodModel = s.prodModel ∧
      (fullprocess train score s).1.prodScore = s.prodScore ∧
      (fullprocess train score s).1.prodManifest = s.prodManifest) := by
  have hman : (driverIngest s).manifestFile =
      some (manifestNames (driverInputDir s)) := rfl
  have hout : (driverAfterIngest s).outFinalData = some rows := hdata
  constructor
  · intro hdrift
    unfold fullprocess
    rw [if_neg hnew]
    simp only [hout]
    rw [if_pos hdrift]
    simp only [driverAfterIngest, hman, deploy_model]
    refine ⟨?_, ?_, ?_, ?_⟩ <;> trivial
  · intro heq
    unfold fullprocess
    rw [if_neg hnew]
    simp only [hout]
    rw [if_neg (by simpa using heq)]
    simp only [driverAfterIngest]
    refine ⟨?_, ?_, ?_, ?_⟩ <;> trivial

/-- C1: after re-training and re-scoring, the driver deploys — updating
the three production deployment files to the new model, new score and new
manifest — exactly when the new score is unequal (exact inequality, no
tolerance) to the persisted production score; when the two scores are
exactly equal it exits leaving the production deployment files unchanged. -/
theorem fullprocess_drift_check {Row Model TD : Type} [DecidableEq Row]
    (train : List Row → Model) (score : Model → TD → ℚ)
    (s : DriverState Row Model TD) (rows : List Row)
    (hnew : newDataFiles s ≠ [])
    (hdata : (driverIngest s).finalData = some rows) :
    (score (train rows) s.testData ≠ s.prodScore.getD 0 →
      (fullprocess train score s).2 = none ∧
      (fullprocess train score s).1.prodModel = some (train rows) ∧
      (fullprocess train score s).1.prodScore =
        some (score (train rows) s.testData) ∧
      (fullprocess train score s).1.prodManifest =
        some (manifestNames (driverInputDir s))) ∧
    (score (train rows) s.testData = s.prodScore.getD 0 →
      (fullprocess train score s).2 = none ∧
      (fullprocess train score s).1.prodModel = s.prodModel ∧
      (fullprocess train score s).1.prodScore = s.prodScore ∧
      (fullprocess train score s).1.prodManifest = s.prodManifest) :=
  fullprocess_run_spec train score s rows hnew hdata

/-- Concrete driver state for the C1 witness: one new CSV in the source
folder, a production score of 1 on record. -/
def driftState : DriverState Nat Nat Nat :=
  ⟨[("new.csv", [1, 2])], [], 0, none, none, none, none, none, some 1, none⟩

/-- C1 witness: on `driftState` the new score 2 differs from the recorded
production score 1, so drift is detected and all three production files
are updated. -/
theorem fullprocess_drift_check_witness :
    newDataFiles driftState ≠ [] ∧
    (driverIngest driftState).finalData = some [1, 2] ∧
    ((fullprocess (fun _ => (7 : Nat)) (fun _ _ => (2 : ℚ)) driftState).2 = none ∧
     (fullprocess (fun _ => (7 : Nat)) (fun _ _ => (2 : ℚ)) driftState).1.prodModel = some 7 ∧
     (fullprocess (fun _ => (7 : Nat)) (fun _ _ => (2 : ℚ)) driftState).1.prodScore = some 2 ∧
     (fullprocess (fun _ => (7 : Nat)) (fun _ _ => (2 : ℚ)) driftState).1.prodManifest =
       some (manifestNames (driverInputDir driftState))) := by
  refine ⟨by decide, by decide, ?_⟩
  exact (fullprocess_drift_check (fun _ => 7) (fun _ _ => 2) driftState [1, 2]
    (by decide) (by decide)).1 (by norm_num [driftState])

/-- C5: when every file name in the source data folder is already listed
in the production manifest, the driver exits at once: no ingestion,
training, scoring or deployment happens and the whole file state is
returned unchanged, with no error. -/
theorem fullprocess_no_new_files {Row Model TD : Type} [DecidableEq Row]
    (train : List Row → Model) (score : Model → TD → ℚ)
    (s : DriverState Row Model TD)
    (h : ∀ n ∈ s.inputDir.map Prod.fst, n ∈ ingestedList s) :
    fullprocess train score s = (s, none) := by
  unfold fullprocess
  rw [if_pos]
  unfold newDataFiles
  rw [List.filter_eq_nil_iff]
  intro n hn
  simpa using h n hn

/-- Concrete driver state for the C5 witness: the only source file is
already in the production manifest. -/
def upToDateState : DriverState Nat Nat Nat :=
  ⟨[("a.csv", [1])], [], 0, some ["a.csv"], some [1], some 5, some 1,
    some 5, some 1, some ["a.csv"]⟩

/-- C5 witness: on `upToDateState` the driver is a no-op. -/
theorem fullprocess_no_new_files_witness :
    (∀ n ∈ upToDateState.inputDir.map Prod.fst, n ∈ ingestedList upToDateState) ∧
    fullprocess (fun _ => (7 : Nat)) (fun _ _ => (2 : ℚ)) upToDateState =
      (upToDateState, none) := by
  refine ⟨by decide, ?_⟩
  exact fullprocess_no_new_files (fun _ => 7) (fun _ _ => 2) upToDateState (by decide)

/-- C9: when the production `latestscore.txt` is absent the driver takes
the base score to be 0.0, so a nonzero new score triggers deployment and
a new score exactly 0.0 makes it exit with the production files
unchanged. -/
theorem fullprocess_absent_score_base_zero {Row Model TD : Type} [DecidableEq Row]
    (train : List Row → Model) (score : Model → TD → ℚ)
    (s : DriverState Row Model TD) (rows : List Row)
    (hscore : s.prodScore = none)
    (hnew : newDataFiles s ≠ [])
    (hdata : (driverIngest s).finalData = some rows) :
    (score (train rows) s.testData ≠ 0 →
      (fullprocess train score s).2 = none ∧
      (fullprocess train score s).1.prodModel = some (train rows) ∧
      (fullprocess train score s).1.prodScore =
        some (score (train rows) s.testData) ∧
      (fullprocess train score s).1.prodManifest =
        some (manifestNames (driverInputDir s))) ∧
    (score (train rows) s.testData = 0 →
      (fullprocess train score s).2 = none ∧
      (fullprocess train score s).1.prodModel = s.prodModel ∧
      (fullprocess train score s).1.prodScore = s.prodScore ∧
      (fullprocess train score s).1.prodManifest = s.prodManifest) := by
  have h := fullprocess_run_spec train score s rows hnew hdata
  have hg : s.prodScore.getD 0 = 0 := by rw [hscore]; rfl
  rw [hg] at h
  exact h

/-- Concrete driver state for the C9 witness: one new CSV and no
production score on record. -/
def noScoreState : DriverState Nat Nat Nat :=
  ⟨[("new.csv", [1, 2])], [], 0, none, none, none, none, none, none, none⟩

/-- C9 witness: with no recorded production score, a new score of 2 ≠ 0
triggers deployment of all three production files. -/
theorem fullprocess_absent_score_base_zero_witness :
    noScoreState.prodScore = none ∧
    newDataFiles noScoreState ≠ [] ∧
    (driverIngest noScoreState).finalData = some [1, 2] ∧
    ((fullprocess (fun _ => (7 : Nat)) (fun _ _ => (2 : ℚ)) noScoreState).2 = none ∧
     (fullprocess (fun _ => (7 : Nat)) (fun _ _ => (2 : ℚ)) noScoreState).1.prodModel = some 7 ∧
     (fullprocess (fun _ => (7 : Nat)) (fun _ _ => (2 : ℚ)) noScoreState).1.prodScore = some 2 ∧
     (fullprocess (fun _ => (7 : Nat)) (fun _ _ => (2 : ℚ)) noScoreState).1.prodManifest =
       some (manifestNames (driverInputDir noScoreState))) := by
  refine ⟨rfl, by decide, by decide, ?_⟩
  exact (fullprocess_absent_score_base_zero (fun _ => 7) (fun _ _ => 2) noScoreState [1, 2]
    rfl (by decide) (by decide)).1 (by norm_num)

/-! ## HTTP facade (app.py)

Each endpoint runs one pipeline stage inline; the stage's outcome is
modelled as `Except String A` (`error e` = a raised exception with
message `e`).  An endpoint returns `Except String HttpResponse`:
`ok r` is the HTTP response sent, `error e` an exception that escaped
the endpoint body uncaught. -/

/-- An HTTP response: status code and body text. -/
structure HttpResponse where
  status : Nat
  body : String
  deriving DecidableEq

/-- `jsonify({"error": str(e)})`: the 500-body built from an exception
message. -/
def jsonError (msg : String) : String :=
  "\x7b\"error\": \"" ++ msg ++ "\"\x7d"

/-- `first_run` (app.py lines 28-69): the whole pipeline runs inside
try/except; an exception becomes a 500 response carrying its message. -/
def first_run (stage : Except String Unit) : Except String HttpResponse :=
  match stage with
  | .error e => .ok ⟨500, jsonError e⟩
  | .ok _ => .ok ⟨200, "\x7b\"message\": \"First run completed successfully\"\x7d"⟩

/-- `predict` (app.py lines 72-124): the prediction stage runs inside
try/except; an exception becomes a 500 response carrying its message. -/
def predict (stage : Except String String) : Except String HttpResponse :=
  match stage with
  | .error e => .ok ⟨500, jsonError e⟩
  | .ok preds => .ok ⟨200, preds⟩

/-- `scoring_stats` (app.py lines 128-147): no try/except — an exception
raised by the scorer propagates out of the endpoint. -/
def scoring_stats (stage : Except String ℚ) : Except String HttpResponse :=
  match stage with
  | .error e => .error e
  | .ok f1 => .ok ⟨200, "\x7b\"f1_score\": " ++ toString f1 ++ "\x7d"⟩

/-- `summary_stats` (app.py lines 151-175): no try/except — an exception
raised by the diagnostics stage propagates out of the endpoint. -/
def summary_stats (stage : Except String String) : Except String HttpResponse :=
  match stage with
  | .error e => .error e
  | .ok stats => .ok ⟨200, stats⟩

/-- `diagnostics_stats` (app.py lines 179-230): no try/except — an
exception raised by the diagnostics stage propagates out of the
endpoint. -/
def diagnostics_stats (stage : Except String String) :
    Except String HttpResponse :=
  match stage with
  | .error e => .error e
  | .ok info => .ok ⟨200, info⟩

/-- C6 counterexample: an exception in the scoring endpoint is not
converted into any HTTP response — it propagates uncaught, refuting the
claim that all five endpoints catch and convert exceptions to 500s. -/
theorem scoring_stats_uncaught :
    scoring_stats (Except.error "boom") = Except.error "boom" ∧
    ∀ r : HttpResponse, scoring_stats (Except.error "boom") ≠ Except.ok r := by
  refine ⟨rfl, fun r h => ?_⟩
  exact Except.noConfusion h

/-- C6 (amended): `first_run` and `predict` catch every exception and
answer HTTP 500 with a body containing the message; the scoring, summary
statistics and diagnostics endpoints have no handler, so the exception
propagates uncaught. -/
theorem endpoints_error_handling (e : String) :
    (∃ pre post, first_run (Except.error e) = Except.ok ⟨500, pre ++ e ++ post⟩) ∧
    (∃ pre post, predict (Except.error e) = Except.ok ⟨500, pre ++ e ++ post⟩) ∧
    scoring_stats (Except.error e) = Except.error e ∧
    summary_stats (Except.error e) = Except.error e ∧
    diagnostics_stats (Except.error e) = Except.error e :=
  ⟨⟨"\x7b\"error\": \"", "\"\x7d", rfl⟩,
   ⟨"\x7b\"error\": \"", "\"\x7d", rfl⟩, rfl, rfl, rfl⟩

end DRAS
